import Mathlib

/-!
# Verification of the buenaviabaq ML service feature pipeline

Shallow embedding of `src/ml-service/app/preprocessing.py` and
`src/ml-service/app/model.py` (the `FeaturePreprocessor`,
`TrafficPredictionModel` and `ModelManager` classes), together with proofs
about the behaviour claimed in the specification.

Modelling conventions:
* Python floats are modelled as rationals (`ℚ`); the arithmetic the claims
  exercise (ratios against the fixed thresholds, means, variances, division
  by per-column scale) is decided identically by rationals at every input
  appearing below.
* A raw record (a Python dict coming from the database) is an association
  list from feature names to values that are numeric, boolean, or null.
* A pandas cell is numeric, boolean, or NaN; a missing key and an explicit
  null both become NaN when `pd.DataFrame(data)` materialises the batch.
* Methods that mutate the preprocessor's scaler state are state
  transformers returning the new state next to the `Except` result, so
  frame properties ("this call leaves the scaler untouched") are stated as
  equalities of states.
* `StandardScaler`'s square root of the per-column variance is not a
  rational operation; it is taken as an explicit function argument `sq`
  everywhere it occurs, and every theorem is proved for all choices of
  `sq`, hence in particular for the true square root.
-/

namespace ViaBaq

/-- A raw value in a feature record: numeric, boolean, or null
(Python `None` / SQL `NULL`). -/
inductive Value where
  | num (q : ℚ)
  | vbool (b : Bool)
  | null
deriving DecidableEq

/-- A feature record: one row coming from the database, a dict from
feature name to value. -/
abbrev Record := List (String × Value)

/-- A cell of a pandas DataFrame: numeric, boolean, or NaN.  A key missing
from a record and an explicit null both materialise as NaN. -/
inductive Cell where
  | num (q : ℚ)
  | tf (b : Bool)
  | NA
deriving DecidableEq

/-- Matrices are row-major lists of cell rows. -/
abbrev Mat := List (List Cell)

/-- Error kinds, following the spec's taxonomy (§7): `validation`,
`notFound`, `invalidState`; `typeErr` covers errors raised inside
pandas / sklearn (astype on NaN, NaN fed to the scaler, shape mismatch). -/
inductive Err where
  | validation (msg : String)
  | notFound (msg : String)
  | invalidState (msg : String)
  | typeErr (msg : String)
deriving DecidableEq

/-- `FeaturePreprocessor.FEATURE_ORDER` (preprocessing.py lines 17-42). -/
def FEATURE_ORDER : List String :=
  ["hour_of_day", "day_of_week", "day_of_month", "month",
   "is_rush_hour", "is_weekend",
   "avg_speed_historical", "avg_congestion_level_encoded",
   "traffic_std_deviation",
   "temperature", "humidity", "wind_speed", "rain_probability",
   "weather_condition_encoded", "is_raining",
   "event_nearby", "event_type_encoded", "event_distance_km",
   "road_type_encoded", "lanes", "max_speed_kmh",
   "arroyo_nearby", "arroyo_risk_level_encoded", "arroyo_distance_km"]

/-- `bool_columns` in `prepare_features` (preprocessing.py lines 61-62). -/
def boolColumns : List String :=
  ["is_rush_hour", "is_weekend", "is_raining", "event_nearby", "arroyo_nearby"]

/-- The constant entries of the `numeric_fills` table in
`_fill_missing_values` (preprocessing.py lines 84-100); the
`avg_speed_historical` entry is batch-dependent and handled separately. -/
def fillConsts : List (String × ℚ) :=
  [("avg_congestion_level_encoded", 33/100),
   ("traffic_std_deviation", 0),
   ("temperature", 30),
   ("humidity", 75),
   ("wind_speed", 15),
   ("rain_probability", 20),
   ("weather_condition_encoded", 1),
   ("event_type_encoded", 0),
   ("event_distance_km", 10),
   ("road_type_encoded", 2),
   ("lanes", 2),
   ("max_speed_kmh", 60),
   ("arroyo_risk_level_encoded", 0),
   ("arroyo_distance_km", 5)]

/-- The keys of the `numeric_fills` table (preprocessing.py lines 84-100). -/
def numericFillNames : List String :=
  "avg_speed_historical" :: fillConsts.map Prod.fst

/-- The cell a record contributes to a column: its value if the key is
present, NaN for an explicit null or a missing key. -/
def rawCell (r : Record) (f : String) : Cell :=
  match r.lookup f with
  | some (.num q) => .num q
  | some (.vbool b) => .tf b
  | some .null => .NA
  | none => .NA

/-- Whether any record of the batch carries the key `f`; this is exactly
"`f` is a column of `pd.DataFrame(data)`". -/
def batchHasKey (data : List Record) (f : String) : Bool :=
  data.any (fun r => (r.lookup f).isSome)

/-- Insertion into a sorted list of rationals (for the batch median). -/
def insertQ (x : ℚ) : List ℚ → List ℚ
  | [] => [x]
  | y :: ys => if x ≤ y then x :: y :: ys else y :: insertQ x ys

/-- Insertion sort on rationals. -/
def sortQ : List ℚ → List ℚ
  | [] => []
  | x :: xs => insertQ x (sortQ xs)

/-- Median of a list of rationals in pandas' sense (average of the two
middle elements for even length); `none` on the empty list (pandas returns
NaN there, so the subsequent `fillna` is a no-op). -/
def median (l : List ℚ) : Option ℚ :=
  let s := sortQ l
  let n := s.length
  if n = 0 then none
  else if n % 2 = 1 then s.get? (n / 2)
  else
    match s.get? (n / 2 - 1), s.get? (n / 2) with
    | some a, some b => some ((a + b) / 2)
    | _, _ => none

/-- The numeric entries of a column, NaN skipped (pandas `median` skips
NaN); booleans do not occur in the columns the median is taken over. -/
def numericEntries (data : List Record) (f : String) : List ℚ :=
  data.filterMap (fun r =>
    match rawCell r f with
    | .num q => some q
    | _ => none)

/-- The fill value `numeric_fills[f]` (preprocessing.py lines 84-100):
the batch median for `avg_speed_historical`
(`df.get('avg_speed_historical', pd.Series([50])).median()`, i.e. 50 when
the column is absent), and a fixed constant for every other key; `none`
models a NaN fill value (all-NaN column), which makes `fillna` a no-op. -/
def fillValue (data : List Record) (f : String) : Option ℚ :=
  if f = "avg_speed_historical" then
    if batchHasKey data f then median (numericEntries data f) else some 50
  else fillConsts.lookup f

/-- Truncation toward zero, the behaviour of Python `int()` /
numpy `astype(int)` on a float. -/
def ratTrunc (q : ℚ) : ℚ :=
  if 0 ≤ q then (⌊q⌋ : ℚ) else (⌈q⌉ : ℚ)

/-- One cell under `astype(int)`: booleans to {0,1}, numerics truncated.
Never reached on NaN: the column-level guard raises first. -/
def truncCell : Cell → Cell
  | .num q => .num (ratTrunc q)
  | .tf b => .num (if b then 1 else 0)
  | .NA => .NA

/-- `fillna` on one cell: replaces NaN by the fill value when that value
is itself non-NaN, leaves everything else alone. -/
def applyFill (v : Option ℚ) : Cell → Cell
  | .NA =>
    match v with
    | some q => .num q
    | none => .NA
  | c => c

/-- The full processing of one column named `f` of the batch
(preprocessing.py lines 58-76): a column absent from every record is
created as all zeros (`df[feature] = 0`); a present boolean column is
`astype(int)`-converted, raising when it contains NaN; a present column
in the fill table gets `fillna` with its fill value; every other present
column is passed through untouched. -/
def processColumn (data : List Record) (f : String) : Except Err (List Cell) :=
  if batchHasKey data f then
    let raw := data.map (fun r => rawCell r f)
    let afterBool : Except Err (List Cell) :=
      if f ∈ boolColumns then
        if Cell.NA ∈ raw then
          .error (.typeErr "cannot convert non-finite values (NA) to integer")
        else .ok (raw.map truncCell)
      else .ok raw
    match afterBool with
    | .error e => .error e
    | .ok c =>
      if f ∈ numericFillNames then .ok (c.map (applyFill (fillValue data f)))
      else .ok c
  else .ok (List.replicate data.length (Cell.num 0))

/-- Processes a list of feature names into the corresponding columns,
propagating the first error. -/
def columnsResult (data : List Record) : List String → Except Err (List (List Cell))
  | [] => .ok []
  | f :: fs =>
    match processColumn data f with
    | .error e => .error e
    | .ok c =>
      match columnsResult data fs with
      | .error e => .error e
      | .ok cs => .ok (c :: cs)

/-- Reassembles per-feature columns (each of length `n`) into the
row-major matrix `df[FEATURE_ORDER]`. -/
def matrixOfCols (n : ℕ) (cols : List (List Cell)) : Mat :=
  (List.range n).map (fun i => cols.map (fun c => c.getD i Cell.NA))

/-- `FeaturePreprocessor.prepare_features` (preprocessing.py lines 48-78):
materialise the batch as a DataFrame, `astype(int)` the boolean columns,
fill missing values, create absent features as zero columns, and select
the columns in `FEATURE_ORDER` order. -/
def prepare_features (data : List Record) : Except Err Mat :=
  match columnsResult data FEATURE_ORDER with
  | .error e => .error e
  | .ok cols => .ok (matrixOfCols data.length cols)

/-- The mutable scaler state of a `FeaturePreprocessor`
(preprocessing.py lines 44-46): the fitted `StandardScaler`'s per-column
means and scales, and the `is_fitted` flag. -/
structure PrepState where
  scalerMean : List ℚ
  scalerScale : List ℚ
  is_fitted : Bool
deriving DecidableEq

/-- The fresh preprocessor state created by `FeaturePreprocessor.__init__`. -/
def initPrepState : PrepState := ⟨[], [], false⟩

/-- Numeric view of a cell, as numpy coerces it: booleans to 0/1, NaN to
`none`. -/
def cellToQ : Cell → Option ℚ
  | .num q => some q
  | .tf b => some (if b then 1 else 0)
  | .NA => none

/-- What `StandardScaler.fit` computes (sklearn): per-column mean and
scale, the scale being the square root of the population variance with
zeros replaced by 1.  Raises on an empty matrix, ragged rows, or NaN
cells, exactly where sklearn's input validation does.  `sq` stands for
the square root, which is not a rational operation; every theorem below
holds for all `sq`. -/
def computeParams (sq : ℚ → ℚ) (X : Mat) : Except Err (List ℚ × List ℚ) :=
  match X with
  | [] => .error (.typeErr "0 sample(s) while a minimum of 1 is required")
  | r0 :: _ =>
    if X.all (fun r => r.length = r0.length) then
      let cols := (List.range r0.length).map
        (fun j => X.map (fun r => cellToQ (r.getD j Cell.NA)))
      if cols.any (fun c => c.any (fun v => v.isNone)) then
        .error (.typeErr "Input contains NaN")
      else
        let n : ℚ := (X.length : ℚ)
        let vals := cols.map (fun c => c.map (fun v => v.getD 0))
        let mus := vals.map (fun c => c.sum / n)
        let vars := (vals.zip mus).map
          (fun p => ((p.1.map (fun x => (x - p.2) * (x - p.2))).sum) / n)
        .ok (mus, vars.map (fun v => if v = 0 then 1 else sq v))
    else .error (.typeErr "inconsistent number of features")

/-- `FeaturePreprocessor.fit_scaler` (preprocessing.py lines 108-112):
fits the scaler on `X` and sets `is_fitted`; when sklearn's fit raises,
the state is left as it was (the flag assignment is never reached). -/
def fit_scaler (sq : ℚ → ℚ) (s : PrepState) (X : Mat) :
    Except Err Unit × PrepState :=
  match computeParams sq X with
  | .error e => (.error e, s)
  | .ok p => (.ok (), ⟨p.1, p.2, true⟩)

/-- What `StandardScaler.transform` computes on a fitted scaler:
`(x - mean) / scale` per column, after validating the column count
against the fitted means and the absence of NaN. -/
def scalerTransform (s : PrepState) (X : Mat) : Except Err Mat :=
  if X.any (fun r => r.length ≠ s.scalerMean.length) then
    .error (.typeErr "X has a different number of features than during fitting")
  else if X.any (fun r => r.any (fun c => (cellToQ c).isNone)) then
    .error (.typeErr "Input contains NaN")
  else
    .ok (X.map (fun r => (r.zip (s.scalerMean.zip s.scalerScale)).map
      (fun p => Cell.num (((cellToQ p.1).getD 0 - p.2.1) / p.2.2))))

/-- `FeaturePreprocessor.transform` (preprocessing.py lines 114-120):
applies the fitted scaler; when the scaler is not fitted it logs a
warning and returns `X.values` unchanged.  Never mutates the state. -/
def transform (s : PrepState) (X : Mat) : Except Err Mat × PrepState :=
  if s.is_fitted then (scalerTransform s X, s) else (.ok X, s)

/-- `FeaturePreprocessor.fit_transform` (preprocessing.py lines 122-125):
`fit_scaler` then `transform`. -/
def fit_transform (sq : ℚ → ℚ) (s : PrepState) (X : Mat) :
    Except Err Mat × PrepState :=
  match fit_scaler sq s X with
  | (.error e, s') => (.error e, s')
  | (.ok _, s') => transform s' X

/-- `FeaturePreprocessor.prepare_training_data`
(preprocessing.py lines 127-156): raises `ValueError` ("ValidationError"
kind in the spec's taxonomy) when `target_speed_kmh` is not a column of
`pd.DataFrame(data)`; otherwise extracts the raw target column `y` and
returns it with `fit_transform(prepare_features(data))`. -/
def prepare_training_data (sq : ℚ → ℚ) (s : PrepState) (data : List Record) :
    Except Err (Mat × List Cell) × PrepState :=
  if batchHasKey data "target_speed_kmh" then
    let y := data.map (fun r => rawCell r "target_speed_kmh")
    match prepare_features data with
    | .error e => (.error e, s)
    | .ok Xdf =>
      match fit_transform sq s Xdf with
      | (.error e, s') => (.error e, s')
      | (.ok X, s') => (.ok (X, y), s')
  else (.error (.validation "Training data must contain target_speed_kmh"), s)

/-- `FeaturePreprocessor.prepare_prediction_features`
(preprocessing.py lines 158-177): `prepare_features` on the singleton
batch, then `transform` (never `fit_transform`). -/
def prepare_prediction_features (s : PrepState) (r : Record) :
    Except Err Mat × PrepState :=
  match prepare_features [r] with
  | .error e => (.error e, s)
  | .ok df => transform s df

/-- `FeaturePreprocessor.encode_congestion_level`
(preprocessing.py lines 179-203). -/
def encode_congestion_level (speed_kmh : ℚ) (max_speed_kmh : ℚ) : String :=
  let m := if max_speed_kmh = 0 then 60 else max_speed_kmh
  let speed_ratio := speed_kmh / m
  if speed_ratio ≥ 7/10 then "low"
  else if speed_ratio ≥ 5/10 then "moderate"
  else if speed_ratio ≥ 3/10 then "high"
  else "severe"

/-- A fitted regression estimator (LightGBM / RandomForest / XGBoost),
an external collaborator per spec §1: its prediction function is taken as
an abstract total function, and `importances` models the optional
`feature_importances_` attribute. -/
structure Estimator where
  pred : Mat → List ℚ
  importances : Option (List ℚ)

/-- Evaluation metrics mapping (mae / rmse / r2 / mape). -/
abbrev MetricsD := List (String × ℚ)

/-- The state of a `TrafficPredictionModel` (model.py lines 26-33):
an optional fitted estimator plus metadata. -/
structure TPModel where
  model : Option Estimator
  model_type : String
  model_version : String
  metrics : Option MetricsD
  trained_at : Option ℕ
  training_samples : ℕ
  test_samples : ℕ

/-- `TrafficPredictionModel.__init__` (model.py lines 26-33). -/
def initModel (mt : String) : TPModel :=
  ⟨none, mt, "1.0.0", none, none, 0, 0⟩

/-- `TrafficPredictionModel.predict` (model.py lines 134-152): raises
`ValueError("Model not trained or loaded")` (the spec's
`InvalidStateError` kind) when no estimator is present; otherwise returns
the estimator output with every entry clamped to be non-negative
(`np.maximum(predictions, 0)`). -/
def TPModel.predict (m : TPModel) (X : Mat) : Except Err (List ℚ) :=
  match m.model with
  | none => .error (.invalidState "Model not trained or loaded")
  | some est => .ok ((est.pred X).map (fun p => max p 0))

/-- `TrafficPredictionModel.get_feature_importance`
(model.py lines 154-165): returns the empty mapping when no estimator is
present (it does NOT raise), `dict(zip(FEATURE_ORDER, importances))` when
the estimator exposes importances, and the empty mapping otherwise. -/
def TPModel.get_feature_importance (m : TPModel) : Except Err (List (String × ℚ)) :=
  match m.model with
  | none => .ok []
  | some est =>
    match est.importances with
    | some imp => .ok (FEATURE_ORDER.zip imp)
    | none => .ok []

/-- The serialized unit `model_data` written by
`TrafficPredictionModel.save` (model.py lines 175-183) at
`settings.model_path`. -/
structure SavedModel where
  model : Option Estimator
  model_type : String
  model_version : String
  metrics : Option MetricsD
  trained_at : Option ℕ
  training_samples : ℕ
  test_samples : ℕ

/-- `TrafficPredictionModel.load` (model.py lines 194-218), with the
filesystem abstracted to the contents stored at `settings.model_path`
(`fsModel`) and `settings.feature_scaler_path` (`fsScaler`): raises
`FileNotFoundError` when the model file is absent; otherwise overwrites
every field of the receiver from the blob, and—only when the scaler file
exists—replaces the global preprocessor's scaler and sets its
`is_fitted` flag; when the scaler file is absent the preprocessor state
`prep` is left exactly as it was and no error is raised. -/
def TPModel.load (fsModel : Option SavedModel)
    (fsScaler : Option (List ℚ × List ℚ)) (prep : PrepState) :
    Except Err (TPModel × PrepState) :=
  match fsModel with
  | none => .error (.notFound "Model not found at path")
  | some d =>
    let m : TPModel :=
      ⟨d.model, d.model_type, d.model_version, d.metrics, d.trained_at,
       d.training_samples, d.test_samples⟩
    match fsScaler with
    | some sc => .ok (m, ⟨sc.1, sc.2, true⟩)
    | none => .ok (m, prep)

/-- The world a `ModelManager` acts on: the current-model slot
(model.py line 229), the two durable-storage slots written by `save`,
and the global preprocessor state. -/
structure World where
  current_model : Option TPModel
  saved_model : Option SavedModel
  saved_scaler : Option (List ℚ × List ℚ)
  prep : PrepState

/-- `ModelManager.train_new_model` (model.py lines 231-271), with the
training data already fetched from the database (an external
collaborator: `db.fetch_training_data` returns only labeled rows,
newest first).  `rest` models everything after the size guard
(lines 256-271: prepare the data, train, save, install as current);
the theorem below holds for every `rest`, because when fewer than 10
records were fetched the guard raises `ValueError` (the spec's
`ValidationError` kind) before any of it runs. -/
def train_new_model
    (rest : List Record → World → Except Err (TPModel × MetricsD) × World)
    (fetched : List Record) (w : World) :
    Except Err (TPModel × MetricsD) × World :=
  if fetched.length < 10 then
    (.error (.validation "Insufficient training data"), w)
  else rest fetched w

/-- A two-record batch in which only the first record is labeled with
`target_speed_kmh`; the second record is an empty dict. -/
def c3data : List Record := [[("target_speed_kmh", Value.num 50)], []]

/-- The 2×24 all-zero matrix `prepare_features` produces on `c3data`
(every feature is absent from the batch, so every column is created as
zeros). -/
def zeros2x24 : Mat := List.replicate 2 (List.replicate 24 (Cell.num 0))

/-- A singleton batch carrying one fill-table feature (`temperature`) and
one boolean feature (`is_raining`); every other feature is absent. -/
def c1data : List Record :=
  [[("temperature", Value.num 25), ("is_raining", Value.vbool true)]]

/-- The row `prepare_features` produces on `c1data`: `temperature` kept
at 25 (column 9), `is_raining` coerced to 1 (column 14), every absent
feature an all-zero column. -/
def c1row : List Cell :=
  [Cell.num 0, Cell.num 0, Cell.num 0, Cell.num 0, Cell.num 0, Cell.num 0,
   Cell.num 0, Cell.num 0, Cell.num 0, Cell.num 25, Cell.num 0, Cell.num 0,
   Cell.num 0, Cell.num 0, Cell.num 1, Cell.num 0, Cell.num 0, Cell.num 0,
   Cell.num 0, Cell.num 0, Cell.num 0, Cell.num 0, Cell.num 0, Cell.num 0]

/-- C2: `encode_congestion_level(speed, max_speed)` is a pure function
that first replaces a zero `max_speed` by 60, computes
`ratio = speed / max_speed`, and returns "low" when `ratio ≥ 0.7`,
"moderate" when `0.5 ≤ ratio < 0.7`, "high" when `0.3 ≤ ratio < 0.5`, and
"severe" otherwise; in particular `encode_congestion_level(42, 60) = "low"`,
`encode_congestion_level(29.9, 60) = "high"`,
`encode_congestion_level(10, 60) = "severe"`, and for every speed `x`,
`encode_congestion_level(x, 0) = encode_congestion_level(x, 60)`. -/
theorem encode_congestion_level_spec :
    (∀ s m : ℚ, m ≠ 0 →
      (s / m ≥ 7/10 → encode_congestion_level s m = "low") ∧
      (5/10 ≤ s / m ∧ s / m < 7/10 → encode_congestion_level s m = "moderate") ∧
      (3/10 ≤ s / m ∧ s / m < 5/10 → encode_congestion_level s m = "high") ∧
      (s / m < 3/10 → encode_congestion_level s m = "severe")) ∧
    encode_congestion_level 42 60 = "low" ∧
    encode_congestion_level (299/10) 60 = "high" ∧
    encode_congestion_level 10 60 = "severe" ∧
    (∀ x : ℚ, encode_congestion_level x 0 = encode_congestion_level x 60) := by
  refine ⟨?_, by norm_num [encode_congestion_level],
    by norm_num [encode_congestion_level],
    by norm_num [encode_congestion_level], ?_⟩
  · intro s m hm
    refine ⟨fun h => ?_, fun h => ?_, fun h => ?_, fun h => ?_⟩ <;>
      simp only [encode_congestion_level, if_neg hm] <;>
      split_ifs <;> first | rfl | (exfalso; push_neg at *; linarith)
  · intro x
    simp [encode_congestion_level]

/-- Witness for C2 at concrete inputs: `42/60 = 0.7` lands in the "low"
bucket and `max_speed = 0` behaves as 60. -/
theorem encode_congestion_level_spec_witness :
    encode_congestion_level 42 60 = "low" ∧
    encode_congestion_level 15 0 = encode_congestion_level 15 60 :=
  ⟨encode_congestion_level_spec.2.1,
   encode_congestion_level_spec.2.2.2.2 15⟩

/-- C5: for every matrix `X`, calling `transform(X)` on a
`FeaturePreprocessor` whose scaler has not yet been fitted does not raise;
it degrades to a passthrough, returning `X`'s values unchanged (no
normalization applied), and leaves the state as it was. -/
theorem transform_unfitted (s : PrepState) (X : Mat) (h : s.is_fitted = false) :
    transform s X = (.ok X, s) := by
  simp [transform, h]

/-- Witness for C5: the fresh preprocessor passes a concrete matrix
through unchanged. -/
theorem transform_unfitted_witness :
    transform initPrepState [[Cell.num 5, Cell.NA]] =
      (.ok [[Cell.num 5, Cell.NA]], initPrepState) :=
  transform_unfitted initPrepState [[Cell.num 5, Cell.NA]] rfl

/-- C6: for every matrix `X` and square-root implementation `sq`, when
`fit_transform(X)` succeeds with output `M` and post-state `s'`,
re-applying `transform(X)` on that same fitted state reproduces exactly
`M` (and again leaves the state `s'`). -/
theorem fit_transform_then_transform (sq : ℚ → ℚ) (s : PrepState) (X : Mat)
    (M : Mat) (s' : PrepState) (h : fit_transform sq s X = (.ok M, s')) :
    transform s' X = (.ok M, s') := by
  unfold fit_transform fit_scaler at h
  cases hc : computeParams sq X with
  | error e =>
    rw [hc] at h
    simp at h
  | ok p =>
    rw [hc] at h
    simp only at h
    have hfit : (⟨p.1, p.2, true⟩ : PrepState).is_fitted = true := rfl
    rw [transform, if_pos hfit] at h
    obtain ⟨h1, h2⟩ := Prod.mk.injEq .. ▸ h
    subst h2
    rw [transform, if_pos hfit, h1]

/-- Witness for C6: fitting on a concrete 2×1 matrix and re-transforming
it reproduces the fitted output. -/
theorem fit_transform_then_transform_witness :
    transform ⟨[2], [1], true⟩ [[Cell.num 1], [Cell.num 3]] =
      (.ok [[Cell.num (-1)], [Cell.num 1]], ⟨[2], [1], true⟩) :=
  fit_transform_then_transform id initPrepState
    [[Cell.num 1], [Cell.num 3]] [[Cell.num (-1)], [Cell.num 1]]
    ⟨[2], [1], true⟩ (by
      simp [fit_transform, fit_scaler, computeParams, cellToQ, scalerTransform,
        transform, initPrepState, List.range_succ]
      norm_num)

/-- C9: for every preprocessor state and every single feature record,
`prepare_prediction_features` composes `prepare_features` with
`transform` and never with `fit_transform`, so a prediction leaves the
preprocessor's scaler state unchanged: the fitted flag and the stored
per-column normalization parameters are the same after the call as
before it. -/
theorem prepare_prediction_features_frame (s : PrepState) (r : Record) :
    (prepare_prediction_features s r).2 = s := by
  unfold prepare_prediction_features
  cases prepare_features [r] with
  | error e => rfl
  | ok df =>
    simp only [transform]
    split <;> rfl

/-- C4: `TrafficPredictionModel.predict(X)` fails with an
`InvalidStateError`-kind error if and only if no estimator has been
fitted or loaded (`model is None`); otherwise, for every input matrix, it
returns the underlying estimator's output with each entry clamped to be
non-negative, so every returned predicted speed is `≥ 0`. -/
theorem predict_spec (m : TPModel) (X : Mat) :
    (m.model = none →
      m.predict X = .error (.invalidState "Model not trained or loaded")) ∧
    ((∃ e, m.predict X = .error e) ↔ m.model = none) ∧
    (∀ est, m.model = some est →
      m.predict X = .ok ((est.pred X).map (fun p => max p 0))) ∧
    (∀ v, m.predict X = .ok v → ∀ p ∈ v, (0 : ℚ) ≤ p) := by
  refine ⟨fun h => ?_, ?_, fun est hest => ?_, fun v hv p hp => ?_⟩
  · simp [TPModel.predict, h]
  · cases hm : m.model with
    | none => simp [TPModel.predict, hm]
    | some est => simp [TPModel.predict, hm]
  · simp [TPModel.predict, hest]
  · cases hm : m.model with
    | none => simp [TPModel.predict, hm] at hv
    | some est =>
      simp only [TPModel.predict, hm, Except.ok.injEq] at hv
      subst hv
      obtain ⟨q, _, rfl⟩ := List.mem_map.mp hp
      exact le_max_right q 0

/-- Witness for C4: a model holding an estimator that outputs a negative
entry; `predict` clamps it to 0 and never errors. -/
theorem predict_spec_witness :
    TPModel.predict ⟨some ⟨fun _ => [-5, 3], none⟩, "lightgbm", "1.0.0",
        none, none, 0, 0⟩ [] = .ok [0, 3] := by
  have h := (predict_spec ⟨some ⟨fun _ => [-5, 3], none⟩, "lightgbm",
    "1.0.0", none, none, 0, 0⟩ []).2.2.1 ⟨fun _ => [-5, 3], none⟩ rfl
  rw [h]
  norm_num

/-- C8 counterexample: `get_feature_importance` on a model with no
estimator fitted or loaded returns the empty mapping and does NOT raise,
contradicting the claim that it fails with an `InvalidStateError`-kind
error. -/
theorem get_feature_importance_unfitted_counterexample :
    TPModel.get_feature_importance (initModel "lightgbm") = .ok [] := rfl

/-- C8 amended: `get_feature_importance` called before any estimator has
been fitted or loaded raises nothing and returns the empty mapping (the
`if self.model is None: return {}` branch of model.py lines 154-157),
contrary to the spec's error-taxonomy sentence. -/
theorem get_feature_importance_unfitted (m : TPModel) (h : m.model = none) :
    m.get_feature_importance = .ok [] := by
  simp [TPModel.get_feature_importance, h]

/-- Witness for the amended C8: the freshly constructed model. -/
theorem get_feature_importance_unfitted_witness :
    TPModel.get_feature_importance (initModel "randomforest") = .ok [] :=
  get_feature_importance_unfitted (initModel "randomforest") rfl

/-- C7: `ModelManager.train_new_model` fails with a
`ValidationError`-kind error whenever the data source yields fewer than
10 labeled records, and in that case no model is trained, persisted, or
installed as the current model: the world (current-model slot, both
storage slots, preprocessor state) is returned exactly as it was, for
every possible continuation `rest` of the training pipeline. -/
theorem train_new_model_insufficient
    (rest : List Record → World → Except Err (TPModel × MetricsD) × World)
    (fetched : List Record) (w : World) (h : fetched.length < 10) :
    train_new_model rest fetched w =
      (.error (.validation "Insufficient training data"), w) := by
  simp [train_new_model, h]

/-- Witness for C7: with exactly 5 labeled rows available, training
fails and the world is untouched. -/
theorem train_new_model_insufficient_witness :
    train_new_model (fun _ w => (.error (.typeErr "unreached"), w))
        (List.replicate 5 [("target_speed_kmh", Value.num 50)])
        ⟨none, none, none, initPrepState⟩ =
      (.error (.validation "Insufficient training data"),
        ⟨none, none, none, initPrepState⟩) :=
  train_new_model_insufficient _ _ _ (by decide)

/-- C10: if the model file exists at the configured path but the scaler
file does not, `load` succeeds anyway: it restores the estimator and its
metadata from the blob, leaves the global preprocessor's scaler and
fitted flag unchanged (still unfitted if never fitted), and raises no
error — so subsequent predictions silently run on unscaled features. -/
theorem load_model_without_scaler (d : SavedModel) (prep : PrepState) :
    TPModel.load (some d) none prep =
      .ok (⟨d.model, d.model_type, d.model_version, d.metrics, d.trained_at,
        d.training_samples, d.test_samples⟩, prep) := rfl

/-- If `l.get? i` hits `x`, `getD` with any default returns `x`. -/
theorem getD_of_getQ {α : Type _} {l : List α} {i : ℕ} {x : α} (d : α)
    (h : l.get? i = some x) : l.getD i d = x := by
  induction l generalizing i with
  | nil => cases h
  | cons a t ih =>
    cases i with
    | zero => cases h; rfl
    | succ j => exact ih h

/-- `getD` on a replicated list returns the replicated element inside
bounds. -/
theorem getD_replicate {α : Type _} (a d : α) :
    ∀ (n i : ℕ), i < n → (List.replicate n a).getD i d = a
  | _ + 1, 0, _ => rfl
  | n + 1, i + 1, h => getD_replicate a d n i (Nat.lt_of_succ_lt_succ h)

/-- Index bound extracted from a successful `get?`. -/
theorem lt_of_getQ {α : Type _} {l : List α} {i : ℕ} {x : α}
    (h : l.get? i = some x) : i < l.length := by
  by_contra hc
  push_neg at hc
  rw [List.get?_eq_none.mpr hc] at h
  cases h

/-- `get?` commutes with `map`. -/
theorem map_getQ_of_getQ {α β : Type _} {l : List α} {g : α → β} {j : ℕ}
    {x : α} (h : l.get? j = some x) : (l.map g).get? j = some (g x) := by
  rw [List.get?_eq_getElem?, List.getElem?_map, ← List.get?_eq_getElem?, h]
  rfl

/-- A record whose cell for `f` is not NaN carries the key `f`, so the
whole batch has the column. -/
theorem hasKey_of_rawCell {data : List Record} {i : ℕ} {r : Record}
    {f : String} (hir : data.get? i = some r) (h : rawCell r f ≠ .NA) :
    batchHasKey data f = true := by
  unfold batchHasKey
  rw [List.any_eq_true]
  refine ⟨r, List.get?_mem hir, ?_⟩
  unfold rawCell at h
  cases hl : r.lookup f with
  | none => rw [hl] at h; exact absurd rfl h
  | some v => simp [hl]

/-- Branch-free characterization of `processColumn`, using that the
boolean columns and the fill table are disjoint. -/
theorem processColumn_eq (data : List Record) (f : String) :
    processColumn data f =
      if batchHasKey data f = true then
        if f ∈ boolColumns then
          if Cell.NA ∈ data.map (fun r => rawCell r f) then
            .error (.typeErr "cannot convert non-finite values (NA) to integer")
          else .ok ((data.map (fun r => rawCell r f)).map truncCell)
        else if f ∈ numericFillNames then
          .ok ((data.map (fun r => rawCell r f)).map (applyFill (fillValue data f)))
        else .ok (data.map (fun r => rawCell r f))
      else .ok (List.replicate data.length (Cell.num 0)) := by
  have hd : ∀ g ∈ boolColumns, g ∉ numericFillNames := by decide
  unfold processColumn
  by_cases hk : batchHasKey data f = true <;>
    by_cases hb : f ∈ boolColumns <;>
    by_cases hNA : Cell.NA ∈ data.map (fun r => rawCell r f) <;>
    by_cases hf : f ∈ numericFillNames <;>
    first
      | exact absurd hf (hd f hb)
      | simp [hk, hb, hNA, hf]

/-- Every successfully processed column has one cell per record. -/
theorem processColumn_ok_length {data : List Record} {f : String}
    {c : List Cell} (h : processColumn data f = .ok c) :
    c.length = data.length := by
  rw [processColumn_eq] at h
  by_cases hk : batchHasKey data f = true <;>
    by_cases hb : f ∈ boolColumns <;>
    by_cases hNA : Cell.NA ∈ data.map (fun r => rawCell r f) <;>
    by_cases hf : f ∈ numericFillNames <;>
    simp [hk, hb, hNA, hf] at h <;>
    simp [← h]

/-- A successful `columnsResult` has one column per requested feature,
each one a successful `processColumn`. -/
theorem columnsResult_ok {data : List Record} :
    ∀ {fs : List String} {cs : List (List Cell)},
      columnsResult data fs = .ok cs →
      cs.length = fs.length ∧
      ∀ j f, fs.get? j = some f →
        ∃ c, cs.get? j = some c ∧ processColumn data f = .ok c := by
  intro fs
  induction fs with
  | nil =>
    intro cs h
    cases h
    exact ⟨rfl, fun j f hf => by cases j <;> cases hf⟩
  | cons f0 ft ih =>
    intro cs h
    unfold columnsResult at h
    cases hp : processColumn data f0 with
    | error e => rw [hp] at h; cases h
    | ok c0 =>
      rw [hp] at h
      cases hr : columnsResult data ft with
      | error e => rw [hr] at h; cases h
      | ok ct =>
        rw [hr] at h
        cases h
        obtain ⟨hlen, hget⟩ := ih hr
        refine ⟨by simp [hlen], fun j f hf => ?_⟩
        cases j with
        | zero => cases hf; exact ⟨c0, rfl, hp⟩
        | succ j' => exact hget j' f hf

/-- Row `i` of the reassembled matrix gathers cell `i` of every column. -/
theorem matrixOfCols_get {n : ℕ} {cols : List (List Cell)} {i : ℕ}
    (hi : i < n) :
    (matrixOfCols n cols).get? i = some (cols.map (fun c => c.getD i Cell.NA)) := by
  unfold matrixOfCols
  rw [List.get?_eq_getElem?, List.getElem?_map, List.getElem?_range hi]
  rfl

/-- Membership characterization of the rows of the reassembled matrix. -/
theorem mem_matrixOfCols {n : ℕ} {cols : List (List Cell)} {row : List Cell} :
    row ∈ matrixOfCols n cols ↔
      ∃ i, i < n ∧ row = cols.map (fun c => c.getD i Cell.NA) := by
  simp [matrixOfCols, List.mem_map, List.mem_range, eq_comm]

/-- A successful `prepare_features` is the reassembly of a successful
`columnsResult` over `FEATURE_ORDER`. -/
theorem prepare_features_ok {data : List Record} {m : Mat}
    (h : prepare_features data = .ok m) :
    ∃ cols, columnsResult data FEATURE_ORDER = .ok cols ∧
      m = matrixOfCols data.length cols := by
  unfold prepare_features at h
  cases hc : columnsResult data FEATURE_ORDER with
  | error e => rw [hc] at h; cases h
  | ok cols => rw [hc] at h; cases h; exact ⟨cols, rfl, rfl⟩

/-- A column absent from every record is created as all zeros. -/
theorem processColumn_absent {data : List Record} {f : String}
    (hk : batchHasKey data f = false) :
    processColumn data f = .ok (List.replicate data.length (Cell.num 0)) := by
  rw [processColumn_eq]
  simp [hk]

/-- A present boolean column that survived `astype(int)` had no NaN and
is the truncation of the raw cells. -/
theorem processColumn_ok_boolCol {data : List Record} {f : String}
    {c : List Cell} (hk : batchHasKey data f = true) (hb : f ∈ boolColumns)
    (h : processColumn data f = .ok c) :
    Cell.NA ∉ data.map (fun r => rawCell r f) ∧
      c = data.map (fun r => truncCell (rawCell r f)) := by
  rw [processColumn_eq, if_pos hk, if_pos hb] at h
  by_cases hNA : Cell.NA ∈ data.map (fun r => rawCell r f)
  · rw [if_pos hNA] at h; cases h
  · rw [if_neg hNA] at h
    cases h
    exact ⟨hNA, by rw [List.map_map]; rfl⟩

/-- A present fill-table column is the raw cells with `fillna` applied. -/
theorem processColumn_ok_fillCol {data : List Record} {f : String}
    {c : List Cell} (hk : batchHasKey data f = true)
    (hf : f ∈ numericFillNames) (h : processColumn data f = .ok c) :
    c = data.map (fun r => applyFill (fillValue data f) (rawCell r f)) := by
  have hd : ∀ g ∈ boolColumns, g ∉ numericFillNames := by decide
  have hb : f ∉ boolColumns := fun hbf => hd f hbf hf
  rw [processColumn_eq, if_pos hk, if_neg hb, if_pos hf] at h
  cases h
  rw [List.map_map]
  rfl

/-- A present column that is neither boolean nor in the fill table is
passed through untouched. -/
theorem processColumn_ok_plainCol {data : List Record} {f : String}
    {c : List Cell} (hk : batchHasKey data f = true)
    (hb : f ∉ boolColumns) (hf : f ∉ numericFillNames)
    (h : processColumn data f = .ok c) :
    c = data.map (fun r => rawCell r f) := by
  rw [processColumn_eq, if_pos hk, if_neg hb, if_neg hf] at h
  cases h
  rfl

/-- Shape of a successful `prepare_features`: one row per record, one
column per `FEATURE_ORDER` entry. -/
theorem prepare_features_shape {data : List Record} {m : Mat}
    (h : prepare_features data = .ok m) :
    m.length = data.length ∧ ∀ row ∈ m, row.length = FEATURE_ORDER.length := by
  obtain ⟨cols, hcols, rfl⟩ := prepare_features_ok h
  obtain ⟨hlen, _⟩ := columnsResult_ok hcols
  constructor
  · simp [matrixOfCols]
  · intro row hrow
    obtain ⟨i, _, rfl⟩ := mem_matrixOfCols.mp hrow
    simp [hlen]

/-- A feature absent from the whole batch appears as an all-zero
column. -/
theorem prepare_features_absent_col {data : List Record} {m : Mat} {j : ℕ}
    {f : String} (h : prepare_features data = .ok m)
    (hj : FEATURE_ORDER.get? j = some f) (hk : batchHasKey data f = false) :
    ∀ row ∈ m, row.get? j = some (Cell.num 0) := by
  obtain ⟨cols, hcols, rfl⟩ := prepare_features_ok h
  obtain ⟨hlen, hget⟩ := columnsResult_ok hcols
  obtain ⟨c, hc, hpc⟩ := hget j f hj
  rw [processColumn_absent hk] at hpc
  cases hpc
  intro row hrow
  obtain ⟨i, hi, rfl⟩ := mem_matrixOfCols.mp hrow
  rw [map_getQ_of_getQ hc, getD_replicate _ _ _ _ hi]

/-- A boolean value in a boolean feature column is coerced to {0,1}. -/
theorem prepare_features_bool_cell {data : List Record} {m : Mat} {i j : ℕ}
    {f : String} {r : Record} {b : Bool} (h : prepare_features data = .ok m)
    (hj : FEATURE_ORDER.get? j = some f) (hb : f ∈ boolColumns)
    (hir : data.get? i = some r) (hrb : rawCell r f = .tf b) :
    ∃ row, m.get? i = some row ∧
      row.get? j = some (Cell.num (if b then 1 else 0)) := by
  obtain ⟨cols, hcols, rfl⟩ := prepare_features_ok h
  obtain ⟨hlen, hget⟩ := columnsResult_ok hcols
  obtain ⟨c, hc, hpc⟩ := hget j f hj
  have hk : batchHasKey data f = true :=
    hasKey_of_rawCell hir (by rw [hrb]; intro hh; cases hh)
  obtain ⟨-, rfl⟩ := processColumn_ok_boolCol hk hb hpc
  have hi : i < data.length := lt_of_getQ hir
  refine ⟨_, matrixOfCols_get hi, ?_⟩
  rw [map_getQ_of_getQ hc, getD_of_getQ _ (map_getQ_of_getQ hir), hrb]
  rfl

/-- A missing/null value of a present fill-table feature is replaced by
that feature's fill value. -/
theorem prepare_features_fill_cell {data : List Record} {m : Mat} {i j : ℕ}
    {f : String} {r : Record} {v : ℚ} (h : prepare_features data = .ok m)
    (hj : FEATURE_ORDER.get? j = some f) (hf : f ∈ numericFillNames)
    (hk : batchHasKey data f = true) (hir : data.get? i = some r)
    (hrNA : rawCell r f = .NA) (hv : fillValue data f = some v) :
    ∃ row, m.get? i = some row ∧ row.get? j = some (Cell.num v) := by
  obtain ⟨cols, hcols, rfl⟩ := prepare_features_ok h
  obtain ⟨hlen, hget⟩ := columnsResult_ok hcols
  obtain ⟨c, hc, hpc⟩ := hget j f hj
  have hcfill := processColumn_ok_fillCol hk hf hpc
  subst hcfill
  have hi : i < data.length := lt_of_getQ hir
  refine ⟨_, matrixOfCols_get hi, ?_⟩
  rw [map_getQ_of_getQ hc, getD_of_getQ _ (map_getQ_of_getQ hir), hrNA, hv]
  rfl

/-- When every missing/null value of the batch belongs to a fill-table
feature (with a well-defined fill value), the output matrix has no NaN
cell. -/
theorem prepare_features_no_NA {data : List Record} {m : Mat}
    (h : prepare_features data = .ok m)
    (hcov : ∀ f ∈ FEATURE_ORDER, f ∉ numericFillNames →
      batchHasKey data f = true → ∀ r ∈ data, rawCell r f ≠ .NA)
    (hAvg : batchHasKey data "avg_speed_historical" = true →
      (fillValue data "avg_speed_historical").isSome = true) :
    ∀ row ∈ m, Cell.NA ∉ row := by
  obtain ⟨cols, hcols, rfl⟩ := prepare_features_ok h
  obtain ⟨hlen, hget⟩ := columnsResult_ok hcols
  intro row hrow hNA
  obtain ⟨i, hi, rfl⟩ := mem_matrixOfCols.mp hrow
  obtain ⟨c, hcmem, hcell⟩ := List.mem_map.mp hNA
  obtain ⟨j, hcj⟩ := List.mem_iff_get?.mp hcmem
  have hjlen : j < cols.length := lt_of_getQ hcj
  rw [hlen] at hjlen
  obtain ⟨f, hjf⟩ : ∃ f, FEATURE_ORDER.get? j = some f := by
    cases hf : FEATURE_ORDER.get? j with
    | none => rw [List.get?_eq_none] at hf; omega
    | some f => exact ⟨f, rfl⟩
  obtain ⟨c', hc', hpc⟩ := hget j f hjf
  rw [hcj] at hc'
  cases hc'
  obtain ⟨r, hir⟩ : ∃ r, data.get? i = some r := by
    cases hr : data.get? i with
    | none => rw [List.get?_eq_none] at hr; omega
    | some r => exact ⟨r, rfl⟩
  by_cases hk : batchHasKey data f = true
  · by_cases hb : f ∈ boolColumns
    · obtain ⟨hNAr, rfl⟩ := processColumn_ok_boolCol hk hb hpc
      rw [getD_of_getQ _ (map_getQ_of_getQ hir)] at hcell
      have hmem : rawCell r f ∈ data.map (fun r => rawCell r f) :=
        List.mem_map.mpr ⟨r, List.get?_mem hir, rfl⟩
      cases hrc : rawCell r f with
      | num q => rw [hrc] at hcell; cases hcell
      | tf b => rw [hrc] at hcell; cases hcell
      | NA => rw [hrc] at hmem; exact hNAr hmem
    · by_cases hf : f ∈ numericFillNames
      · have hcfill := processColumn_ok_fillCol hk hf hpc
        subst hcfill
        rw [getD_of_getQ _ (map_getQ_of_getQ hir)] at hcell
        have hvsome : (fillValue data f).isSome = true := by
          by_cases hav : f = "avg_speed_historical"
          · subst hav; exact hAvg hk
          · have hcst : ∀ g ∈ numericFillNames, g ≠ "avg_speed_historical" →
                (fillConsts.lookup g).isSome = true := by decide
            unfold fillValue
            rw [if_neg hav]
            exact hcst f hf hav
        obtain ⟨v, hv⟩ := Option.isSome_iff_exists.mp hvsome
        rw [hv] at hcell
        cases hrc : rawCell r f with
        | num q => rw [hrc] at hcell; cases hcell
        | tf b => rw [hrc] at hcell; cases hcell
        | NA => rw [hrc] at hcell; cases hcell
      · have hcp := processColumn_ok_plainCol hk hb hf hpc
        subst hcp
        rw [getD_of_getQ _ (map_getQ_of_getQ hir)] at hcell
        exact hcov f (List.get?_mem hjf) hf hk r (List.get?_mem hir) hcell
  · have hk' : batchHasKey data f = false := by
      rw [Bool.not_eq_true] at hk
      exact hk
    rw [processColumn_absent hk'] at hpc
    cases hpc
    rw [getD_replicate _ _ _ _ hi] at hcell
    cases hcell

/-- C1 counterexample: the claim "the matrix contains no null/NaN cells:
each missing/null value is replaced by that feature's fixed default" is
false — `hour_of_day` is outside the fill table, so on a batch where the
second record lacks it, its NaN survives into the returned matrix. -/
theorem prepare_features_nan_counterexample :
    prepare_features [[("hour_of_day", Value.num 5)], []] =
      .ok [Cell.num 5 :: List.replicate 23 (Cell.num 0),
           Cell.NA :: List.replicate 23 (Cell.num 0)] := by rfl

/-- C1 amended: for every batch on which `prepare_features` returns a
matrix, that matrix has one row per record and exactly
`len(FEATURE_ORDER)` (24) columns in exactly the `FEATURE_ORDER` order
(column `j` holds feature `FEATURE_ORDER[j]`); booleans in the boolean
feature columns are coerced to {0,1}; a missing/null value of a feature
in the fill table is replaced by that feature's fixed default
(`avg_speed_historical` by the batch median); a feature name absent from
the whole batch appears as an all-zero column; and — only provided every
missing/null value of the batch belongs to a fill-table feature with a
well-defined fill value — the matrix contains no null/NaN cells
(features outside the fill table pass missing values through as NaN). -/
theorem prepare_features_spec (data : List Record) (m : Mat)
    (h : prepare_features data = .ok m) :
    FEATURE_ORDER.length = 24 ∧
    m.length = data.length ∧
    (∀ row ∈ m, row.length = FEATURE_ORDER.length) ∧
    (∀ j f, FEATURE_ORDER.get? j = some f → batchHasKey data f = false →
      ∀ row ∈ m, row.get? j = some (Cell.num 0)) ∧
    (∀ i j f r b, FEATURE_ORDER.get? j = some f → f ∈ boolColumns →
      data.get? i = some r → rawCell r f = .tf b →
      ∃ row, m.get? i = some row ∧
        row.get? j = some (Cell.num (if b then 1 else 0))) ∧
    (∀ i j f r v, FEATURE_ORDER.get? j = some f → f ∈ numericFillNames →
      batchHasKey data f = true → data.get? i = some r →
      rawCell r f = .NA → fillValue data f = some v →
      ∃ row, m.get? i = some row ∧ row.get? j = some (Cell.num v)) ∧
    ((∀ f ∈ FEATURE_ORDER, f ∉ numericFillNames →
        batchHasKey data f = true → ∀ r ∈ data, rawCell r f ≠ .NA) →
      (batchHasKey data "avg_speed_historical" = true →
        (fillValue data "avg_speed_historical").isSome = true) →
      ∀ row ∈ m, Cell.NA ∉ row) :=
  ⟨rfl, (prepare_features_shape h).1, (prepare_features_shape h).2,
   fun _ _ hj hk => prepare_features_absent_col h hj hk,
   fun _ _ _ _ _ hj hb hir hrb => prepare_features_bool_cell h hj hb hir hrb,
   fun _ _ _ _ _ hj hf hk hir hrNA hv =>
     prepare_features_fill_cell h hj hf hk hir hrNA hv,
   fun hcov hAvg => prepare_features_no_NA h hcov hAvg⟩

/-- Witness for the amended C1: on the concrete singleton batch
`c1data`, the output has one row and no NaN cell. -/
theorem prepare_features_spec_witness :
    [c1row].length = c1data.length ∧ Cell.NA ∉ c1row := by
  have spec := prepare_features_spec c1data [c1row] (by rfl)
  refine ⟨spec.2.1, ?_⟩
  exact spec.2.2.2.2.2.2 (by decide) (by decide) c1row (by simp)

/-- C3 counterexample: `prepare_training_data` does NOT require every
record to carry `target_speed_kmh`: on a batch whose second record lacks
it (the column merely being present thanks to the first record), the
call succeeds — no `ValidationError` — and the returned `y` contains a
NaN entry for the unlabeled record. -/
theorem prepare_training_data_missing_target_counterexample :
    prepare_training_data id initPrepState c3data =
      (.ok (zeros2x24, [Cell.num 50, Cell.NA]),
        ⟨List.replicate 24 (0 : ℚ), List.replicate 24 (1 : ℚ), true⟩) := by
  have h1 : prepare_features c3data = .ok zeros2x24 := by rfl
  have h2 : fit_transform id initPrepState zeros2x24 =
      (.ok zeros2x24,
        ⟨List.replicate 24 (0 : ℚ), List.replicate 24 (1 : ℚ), true⟩) := by
    simp [fit_transform, fit_scaler, computeParams, scalerTransform, transform,
      cellToQ, initPrepState, zeros2x24, List.range_succ]
  have hb : batchHasKey c3data "target_speed_kmh" = true := by rfl
  simp only [prepare_training_data, hb, h1, h2, if_true]
  rfl

/-- C3 amended: `prepare_training_data(records)` fails with a
`ValidationError`-kind error exactly when NO record carries a
`target_speed_kmh` value (the code checks column presence, i.e. at least
one record carrying it, not every record); when it succeeds it returns
`(X, y)` where `y` is the raw, unscaled column of the records'
`target_speed_kmh` values (NaN where a record lacks one) and `X` equals
`fit_transform` applied to `prepare_features(records)`. -/
theorem prepare_training_data_spec (sq : ℚ → ℚ) (s : PrepState)
    (data : List Record) :
    (batchHasKey data "target_speed_kmh" = false →
      prepare_training_data sq s data =
        (.error (.validation "Training data must contain target_speed_kmh"), s)) ∧
    (∀ Xdf X s', batchHasKey data "target_speed_kmh" = true →
      prepare_features data = .ok Xdf →
      fit_transform sq s Xdf = (.ok X, s') →
      prepare_training_data sq s data =
        (.ok (X, data.map (fun r => rawCell r "target_speed_kmh")), s')) := by
  constructor
  · intro h
    simp [prepare_training_data, h]
  · intro Xdf X s' hb h1 h2
    simp only [prepare_training_data, hb, h1, h2, if_true]

/-- Witness for the amended C3: a batch with no target column fails with
the `ValidationError`-kind error, and a fully labeled singleton batch
succeeds with the raw target as `y`. -/
theorem prepare_training_data_spec_witness :
    prepare_training_data id initPrepState [[("temperature", Value.num 25)]] =
      (.error (.validation "Training data must contain target_speed_kmh"),
        initPrepState) ∧
    prepare_training_data id initPrepState [[("target_speed_kmh", Value.num 50)]] =
      (.ok (List.replicate 1 (List.replicate 24 (Cell.num 0)), [Cell.num 50]),
        ⟨List.replicate 24 (0 : ℚ), List.replicate 24 (1 : ℚ), true⟩) := by
  constructor
  · exact (prepare_training_data_spec id initPrepState
      [[("temperature", Value.num 25)]]).1 (by rfl)
  · exact (prepare_training_data_spec id initPrepState
      [[("target_speed_kmh", Value.num 50)]]).2
      (List.replicate 1 (List.replicate 24 (Cell.num 0)))
      (List.replicate 1 (List.replicate 24 (Cell.num 0)))
      ⟨List.replicate 24 (0 : ℚ), List.replicate 24 (1 : ℚ), true⟩
      (by rfl) (by rfl)
      (by simp [fit_transform, fit_scaler, computeParams, scalerTransform,
        transform, cellToQ, initPrepState, List.range_succ])

end ViaBaq
